import Mathlib

/-!
Shallow embedding of the shopping-cart core of the Eshop repository
(`main/models.py`, `main/serializers.py`, `main/views.py`, `api/v1/views.py`).

Modelling conventions:
* A `Product` row carries the fields the cart logic reads: `id`, `price`
  (a fixed-point decimal, embedded as `Rat`) and `available`.
* A `CartItem` row is identified inside one cart by its `productId`
  (the `(cart, product)` pair is unique in the schema, and all item
  endpoints resolve the row before acting).  Quantities are embedded as
  `Int`: Python integers are unbounded and `decrement` transiently
  computes `quantity - 1` before comparing with 1.
* A `CartState` is one cart's rows together with the two cache entries
  `cart_total_{id}` and `cart_items_{id}` used by the `total_price` and
  `total_items` properties (`None` = cache miss).  The key `cart_{id}`
  that some handlers pass to `cache.delete` is never written or read
  anywhere in the repository, so it carries no state and is not modelled.
* `prices : Nat -> Rat` resolves `item.product.price` (the foreign key
  guarantees the product row exists).
-/

structure Product where
  id : Nat
  price : Rat
  available : Bool
deriving DecidableEq

structure CartItem where
  productId : Nat
  quantity : Int
deriving DecidableEq

structure CartState where
  items : List CartItem
  cachedTotalPrice : Option Rat
  cachedTotalItems : Option Int
deriving DecidableEq

/-- `CartItem.total_price` (models.py): `self.quantity * self.product.price`. -/
def itemTotalPrice (prices : Nat → Rat) (it : CartItem) : Rat :=
  (it.quantity : Rat) * prices it.productId

/-- `Cart.clear_cache` (models.py): deletes the cache keys
`cart_total_{id}` and `cart_items_{id}`. -/
def clear_cache (st : CartState) : CartState :=
  { st with cachedTotalPrice := none, cachedTotalItems := none }

/-- `Cart.total_price` (models.py): on a cache hit return the cached
value; on a miss, sum `item.total_price` over the items and populate the
cache. -/
def total_price (prices : Nat → Rat) (st : CartState) : Rat × CartState :=
  match st.cachedTotalPrice with
  | some v => (v, st)
  | none =>
    let v := (st.items.map (fun it => itemTotalPrice prices it)).sum
    (v, { st with cachedTotalPrice := some v })

/-- `Cart.total_items` (models.py): on a cache hit return the cached
value; on a miss, sum `item.quantity` over the items and populate the
cache. -/
def total_items (st : CartState) : Int × CartState :=
  match st.cachedTotalItems with
  | some v => (v, st)
  | none =>
    let v := (st.items.map (fun it => it.quantity)).sum
    (v, { st with cachedTotalItems := some v })

/-- `CartSerializer` rendering (serializers.py): reading `total_items`
and `total_price` for the response body, with the cache effects of both
reads. -/
def serializeCart (prices : Nat → Rat) (st : CartState) : Int × Rat × CartState :=
  let ti := total_items st
  let tp := total_price prices ti.2
  (ti.1, tp.1, tp.2)

/-- The row lookup every item endpoint performs
(`CartItem.objects.get_or_create(cart=cart, product=product, ...)` /
`self.get_object()`), keyed by the unique `(cart, product)` pair. -/
def findItem (st : CartState) (pid : Nat) : Option CartItem :=
  st.items.find? (fun it => it.productId == pid)

/-- Row creation through `get_or_create`'s create path: the new row is
saved, and the overridden `CartItem.save` calls `cart.clear_cache()`. -/
def createItem (st : CartState) (pid : Nat) (q : Int) : CartState :=
  { items := st.items ++ [{ productId := pid, quantity := q }],
    cachedTotalPrice := none, cachedTotalItems := none }

/-- `cart_item.quantity = newq; cart_item.save()`: update the row in
place; the overridden `CartItem.save` calls `cart.clear_cache()`. -/
def saveItemQuantity (st : CartState) (pid : Nat) (newq : Int) : CartState :=
  { items := st.items.map
      (fun j => if j.productId == pid then { j with quantity := newq } else j),
    cachedTotalPrice := none, cachedTotalItems := none }

/-- `cart_item.delete()`: remove the row; the overridden
`CartItem.delete` calls `cart.clear_cache()`. -/
def deleteItem (st : CartState) (pid : Nat) : CartState :=
  { items := st.items.filter (fun j => !(j.productId == pid)),
    cachedTotalPrice := none, cachedTotalItems := none }

inductive HttpResult where
  | badRequest
  | notFound
  | ok
  | serverError
deriving DecidableEq

/-- The `get_or_create` + merge block shared verbatim by
`CartViewSet.add_item` (api/v1/views.py) and `add_to_cart`
(main/views.py): if the `(cart, product)` row is absent, create it with
the requested quantity; if present, add the requested quantity and clamp
the sum to 99 before saving. -/
def mergeAdd (st : CartState) (pid : Nat) (q : Int) : CartState :=
  match findItem st pid with
  | none => createItem st pid q
  | some it =>
    let merged := it.quantity + q
    saveItemQuantity st pid (if 99 < merged then 99 else merged)

/-- `CartItemCreateSerializer.validate_quantity` /
`CartItemSerializer.validate_quantity` (serializers.py): rejects a
quantity below 1 or above 99. -/
def validate_quantity (q : Int) : Bool :=
  if q < 1 then false
  else if 99 < q then false
  else true

/-- `CartViewSet.add_item` (api/v1/views.py): validate the payload,
resolve the product among available products (404 when absent or
unavailable), run the get-or-create/merge block, then render the updated
cart through `CartSerializer` (which reads both totals). -/
def add_item (catalog : List Product) (prices : Nat → Rat) (st : CartState)
    (pid : Nat) (q : Int) : HttpResult × CartState :=
  if q < 1 then (.badRequest, st)
  else if 99 < q then (.badRequest, st)
  else
    match catalog.find? (fun p => p.id == pid && p.available) with
    | none => (.notFound, st)
    | some _ => (.ok, (serializeCart prices (mergeAdd st pid q)).2.2)

/-- `add_to_cart` (main/views.py).  The module never imports
`JsonResponse`, so every `return JsonResponse(...)` raises `NameError`
(Python resolves the callable before evaluating its arguments), and the
blanket `except Exception` — which also swallows `get_object_or_404`'s
`Http404` — crashes the same way: the handler answers 500 on every
path.  The branch structure therefore decides only the state effect:
an out-of-range quantity or a missing/unavailable product crashes
before any cart mutation; otherwise the get-or-create/merge block has
already run (and persists under autocommit) before the response
construction crashes, and `cart_total = cart.total_items` is never
evaluated, so the cleared cache is not repopulated.  The
`cache.delete(f'cart_...')` targets the unused `cart_{id}` key. -/
def add_to_cart (catalog : List Product) (st : CartState)
    (pid : Nat) (q : Int) : HttpResult × CartState :=
  if q < 1 then (.serverError, st)
  else if 99 < q then (.serverError, st)
  else
    match catalog.find? (fun p => p.id == pid && p.available) with
    | none => (.serverError, st)
    | some _ => (.serverError, mergeAdd st pid q)

inductive UpdResult where
  | badRequest
  | notFound
  | deletedRow
  | saved (item : CartItem)
deriving DecidableEq

/-- `CartItemViewSet.perform_update` (api/v1/views.py): with the
resolved instance and the effective quantity
(`serializer.validated_data.get('quantity', instance.quantity)`), delete
the row when the quantity is below 1, otherwise store it as-is. -/
def perform_update (st : CartState) (pid : Nat) (it : CartItem) (q : Int) :
    UpdResult × CartState :=
  if q < 1 then (.deletedRow, deleteItem st pid)
  else (.saved { it with quantity := q }, saveItemQuantity st pid q)

/-- The full API update request (`CartItemViewSet`): resolve the row
(404 when absent), run `CartItemSerializer` validation on a submitted
quantity (absent on a partial update, then the instance quantity is
used), and only then `perform_update`. -/
def updatePipeline (st : CartState) (pid : Nat) (q? : Option Int) :
    UpdResult × CartState :=
  match findItem st pid with
  | none => (.notFound, st)
  | some it =>
    match q? with
    | some q =>
      if validate_quantity q then perform_update st pid it q
      else (.badRequest, st)
    | none => perform_update st pid it it.quantity

/-- `update_cart_item` (main/views.py): the bound checks run first and
the row is resolved with `get_object_or_404`, but — as in `add_to_cart`
— `JsonResponse` is unimported and `Http404` is swallowed by
`except Exception`, so every path raises `NameError` and answers 500.
Only the state effect distinguishes the branches: an out-of-range
quantity or a missing row changes nothing, an in-range quantity is
stored as-is by `cart_item.save()` (persisting under autocommit) before
the response construction crashes; `new_total = cart.total_price` is
never evaluated, so the cleared cache is not repopulated. -/
def update_cart_item (st : CartState) (pid : Nat) (q : Int) :
    HttpResult × CartState :=
  if q < 1 then (.serverError, st)
  else if 99 < q then (.serverError, st)
  else
    match findItem st pid with
    | none => (.serverError, st)
    | some _ => (.serverError, saveItemQuantity st pid q)

/-- `CartItemViewSet.increment` (api/v1/views.py): add 1 to the resolved
row's quantity, clamp at 99, save, and return the serialized item.
`none` stands for the 404 of `get_object` on a missing row. -/
def increment (st : CartState) (pid : Nat) : Option CartItem × CartState :=
  match findItem st pid with
  | none => (none, st)
  | some it =>
    let newq := if 99 < it.quantity + 1 then 99 else it.quantity + 1
    (some { it with quantity := newq }, saveItemQuantity st pid newq)

inductive DecResult where
  | notFound
  | removed
  | updated (item : CartItem)
deriving DecidableEq

/-- `CartItemViewSet.decrement` (api/v1/views.py): subtract 1 from the
resolved row's quantity; when the result is below 1, delete the row and
answer with the removal message, otherwise save and return the
serialized item. -/
def decrement (st : CartState) (pid : Nat) : DecResult × CartState :=
  match findItem st pid with
  | none => (.notFound, st)
  | some it =>
    let newq := it.quantity - 1
    if newq < 1 then (.removed, deleteItem st pid)
    else (.updated { it with quantity := newq }, saveItemQuantity st pid newq)

/-- `CartViewSet.clear` (api/v1/views.py): `cart.items.all().delete()`
is a bulk queryset delete, which bypasses the overridden
`CartItem.delete` and therefore never calls `cart.clear_cache()`; the
response then renders the cart through `CartSerializer`. -/
def clearApi (prices : Nat → Rat) (st : CartState) : CartState :=
  (serializeCart prices { st with items := [] }).2.2

/-- `clear_cart` (main/views.py): the same bulk queryset delete, again
bypassing `CartItem.delete`; the follow-up `cache.delete(f'cart_...')`
targets the unused `cart_{id}` key, not `cart_total_{id}` or
`cart_items_{id}`, so the cached totals survive.  The rows are gone
(persisting under autocommit), but the success response — like every
response in this module — raises `NameError` on the unimported
`JsonResponse`, so the handler answers 500, never reporting success. -/
def clear_cart (st : CartState) : HttpResult × CartState :=
  (.serverError, { st with items := [] })

/-- The cart operations the public endpoints expose on one cart. -/
inductive CartOp where
  | add (pid : Nat) (q : Int)
  | inc (pid : Nat)
  | dec (pid : Nat)
  | setQty (pid : Nat) (q? : Option Int)

/-- One exposed request against the cart, projected to its state
effect. -/
def applyOp (catalog : List Product) (prices : Nat → Rat)
    (st : CartState) : CartOp → CartState
  | .add pid q => (add_item catalog prices st pid q).2
  | .inc pid => (increment st pid).2
  | .dec pid => (decrement st pid).2
  | .setQty pid q? => (updatePipeline st pid q?).2

/-- A finite sequence of exposed requests. -/
def runOps (catalog : List Product) (prices : Nat → Rat)
    (st : CartState) (ops : List CartOp) : CartState :=
  ops.foldl (applyOp catalog prices) st

/-- Every stored quantity lies in the inclusive range [1, 99]. -/
def QuantityInv (st : CartState) : Prop :=
  ∀ it ∈ st.items, 1 ≤ it.quantity ∧ it.quantity ≤ 99

/-! ## Helper lemmas -/

theorem items_total_items (st : CartState) : (total_items st).2.items = st.items := by
  unfold total_items
  cases st.cachedTotalItems <;> rfl

theorem items_total_price (prices : Nat → Rat) (st : CartState) :
    (total_price prices st).2.items = st.items := by
  unfold total_price
  cases st.cachedTotalPrice <;> rfl

theorem items_serializeCart (prices : Nat → Rat) (st : CartState) :
    (serializeCart prices st).2.2.items = st.items := by
  unfold serializeCart
  rw [items_total_price, items_total_items]

/-! ## C4: derived totals -/

/-- C4: with no cached entry, `total_price` returns the sum of
`quantity * product.price` over the cart's items and `total_items` the
sum of the quantities; recomputing after a `clear_cache` invalidation
returns the value that was cached by the previous read, the items being
untouched in between. -/
theorem cart_totals_spec (prices : Nat → Rat) (st : CartState)
    (hp : st.cachedTotalPrice = none) (hi : st.cachedTotalItems = none) :
    (total_price prices st).1 = (st.items.map (fun it => itemTotalPrice prices it)).sum ∧
    (total_items st).1 = (st.items.map (fun it => it.quantity)).sum ∧
    (total_items (clear_cache (total_items st).2)).1 = (total_items st).1 ∧
    (total_price prices (clear_cache (total_price prices st).2)).1
      = (total_price prices st).1 := by
  obtain ⟨items, cp, ci⟩ := st
  dsimp only at hp hi
  subst hp
  subst hi
  exact ⟨rfl, rfl, rfl, rfl⟩

/-- Witness for C4 at a concrete one-item cart. -/
theorem cart_totals_spec_witness :
    (total_price (fun _ => (100 : Rat)) ⟨[⟨1, 2⟩], none, none⟩).1 = 200 ∧
    (total_items ⟨[⟨1, 2⟩], none, none⟩).1 = 2 := by
  have h := cart_totals_spec (fun _ => (100 : Rat)) ⟨[⟨1, 2⟩], none, none⟩ rfl rfl
  refine ⟨?_, ?_⟩
  · rw [h.1]; norm_num [itemTotalPrice]
  · rw [h.2.1]; decide

/-! ## C5: decrement -/

/-- C5: `decrement` subtracts exactly 1; when the result is below 1 the
row is deleted (no row for the product remains) and the response is the
distinct removal message, otherwise the decremented quantity is stored
and the updated item is returned. -/
theorem decrement_contract (st : CartState) (pid : Nat) (it : CartItem)
    (hfind : findItem st pid = some it) :
    (it.quantity - 1 < 1 →
      (decrement st pid).1 = DecResult.removed ∧
      (decrement st pid).2 = deleteItem st pid ∧
      ∀ j ∈ (decrement st pid).2.items, (j.productId == pid) = false) ∧
    (1 ≤ it.quantity - 1 →
      (decrement st pid).1 = DecResult.updated { it with quantity := it.quantity - 1 } ∧
      (decrement st pid).2 = saveItemQuantity st pid (it.quantity - 1)) := by
  constructor
  · intro hlt
    have hd : decrement st pid = (DecResult.removed, deleteItem st pid) := by
      simp only [decrement, hfind, if_pos hlt]
    refine ⟨by rw [hd], by rw [hd], ?_⟩
    intro j hj
    rw [hd] at hj
    simp only [deleteItem, List.mem_filter, Bool.not_eq_eq_eq_not, Bool.not_true] at hj
    exact hj.2
  · intro hge
    have hnlt : ¬ (it.quantity - 1 < 1) := by omega
    have hd : decrement st pid
        = (DecResult.updated { it with quantity := it.quantity - 1 },
           saveItemQuantity st pid (it.quantity - 1)) := by
      simp only [decrement, hfind, if_neg hnlt]
    exact ⟨by rw [hd], by rw [hd]⟩

/-- Witness for C5: both the deletion branch (quantity 1) and the save
branch (quantity 3), at concrete one-item carts. -/
theorem decrement_contract_witness :
    (decrement ⟨[⟨1, 1⟩], none, none⟩ 1).1 = DecResult.removed ∧
    (decrement ⟨[⟨1, 3⟩], none, none⟩ 1).1 = DecResult.updated ⟨1, 2⟩ := by
  have h1 := (decrement_contract ⟨[⟨1, 1⟩], none, none⟩ 1 ⟨1, 1⟩ rfl).1 (by decide)
  have h2 := (decrement_contract ⟨[⟨1, 3⟩], none, none⟩ 1 ⟨1, 3⟩ rfl).2 (by decide)
  exact ⟨h1.1, h2.1⟩

/-! ## C6: increment -/

/-- C6: `increment` stores `min(quantity + 1, 99)` and always succeeds
on an existing row (the clamp is silent); in particular ten consecutive
increments starting from quantity 95 end at exactly 99. -/
theorem increment_contract :
    (∀ (st : CartState) (pid : Nat) (it : CartItem),
      findItem st pid = some it →
        (increment st pid).1 = some { it with quantity := min (it.quantity + 1) 99 } ∧
        (increment st pid).2 = saveItemQuantity st pid (min (it.quantity + 1) 99)) ∧
    Nat.iterate (fun s => (increment s 1).2) 10 ⟨[⟨1, 95⟩], none, none⟩
      = ⟨[⟨1, 99⟩], none, none⟩ := by
  constructor
  · intro st pid it hfind
    have hmin : (if 99 < it.quantity + 1 then 99 else it.quantity + 1)
        = min (it.quantity + 1) 99 := by
      split <;> omega
    have hi : increment st pid
        = (some { it with quantity := min (it.quantity + 1) 99 },
           saveItemQuantity st pid (min (it.quantity + 1) 99)) := by
      simp only [increment, hfind, hmin]
    exact ⟨by rw [hi], by rw [hi]⟩
  · decide

/-- Witness for C6 at a concrete one-item cart. -/
theorem increment_contract_witness :
    (increment ⟨[⟨1, 5⟩], none, none⟩ 1).1
      = some { productId := 1, quantity := min (5 + 1) 99 } ∧
    (increment ⟨[⟨1, 5⟩], none, none⟩ 1).2
      = saveItemQuantity ⟨[⟨1, 5⟩], none, none⟩ 1 (min (5 + 1) 99) :=
  increment_contract.1 ⟨[⟨1, 5⟩], none, none⟩ 1 ⟨1, 5⟩ rfl

/-! ## C7: add-item not-found atomicity -/

/-- C7 counterexample: submitting an unavailable product to the web
add handler does not produce the claimed not-found error — the swallowed
`Http404` and the `NameError` on the unimported `JsonResponse` make it
answer 500. -/
theorem add_not_found_claim_counterexample :
    (add_to_cart [⟨1, 100, false⟩] ⟨[], none, none⟩ 1 2).1
      = HttpResult.serverError ∧
    HttpResult.serverError ≠ HttpResult.notFound := by
  decide

/-- C7 as amended: for a product id that is missing or unavailable, the
API add-item answers 404 while the web add handler answers 500 (not
404); on both handlers no CartItem is created or modified and both
totals are unchanged by the failed call. -/
theorem add_item_not_found_atomicity (catalog : List Product) (prices : Nat → Rat)
    (st : CartState) (pid : Nat) (q : Int) (hq1 : 1 ≤ q) (hq2 : q ≤ 99)
    (hnone : catalog.find? (fun p => p.id == pid && p.available) = none) :
    add_item catalog prices st pid q = (.notFound, st) ∧
    add_to_cart catalog st pid q = (.serverError, st) ∧
    (total_items (add_item catalog prices st pid q).2).1 = (total_items st).1 ∧
    (total_price prices (add_item catalog prices st pid q).2).1
      = (total_price prices st).1 ∧
    (total_items (add_to_cart catalog st pid q).2).1 = (total_items st).1 ∧
    (total_price prices (add_to_cart catalog st pid q).2).1
      = (total_price prices st).1 := by
  have h1 : ¬ (q < 1) := by omega
  have h2 : ¬ (99 < q) := by omega
  have ha : add_item catalog prices st pid q = (.notFound, st) := by
    simp only [add_item, if_neg h1, if_neg h2, hnone]
  have hb : add_to_cart catalog st pid q = (.serverError, st) := by
    simp only [add_to_cart, if_neg h1, if_neg h2, hnone]
  refine ⟨ha, hb, by rw [ha], by rw [ha], by rw [hb], by rw [hb]⟩

/-- Witness for C7: an unavailable product in a concrete catalog. -/
theorem add_item_not_found_atomicity_witness :
    add_item [⟨1, 100, false⟩] (fun _ => (100 : Rat)) ⟨[], none, none⟩ 1 2
      = (.notFound, ⟨[], none, none⟩) ∧
    add_to_cart [⟨1, 100, false⟩] ⟨[], none, none⟩ 1 2
      = (.serverError, ⟨[], none, none⟩) :=
  ⟨(add_item_not_found_atomicity [⟨1, 100, false⟩] (fun _ => (100 : Rat))
      ⟨[], none, none⟩ 1 2 (by decide) (by decide) rfl).1,
   (add_item_not_found_atomicity [⟨1, 100, false⟩] (fun _ => (100 : Rat))
      ⟨[], none, none⟩ 1 2 (by decide) (by decide) rfl).2.1⟩

/-! ## C1: add-item merge semantics -/

theorem filter_map_setQuantity (l : List CartItem) (pid : Nat) (q newq : Int)
    (h : l.find? (fun it => it.productId == pid) = none) :
    ((l ++ [({ productId := pid, quantity := q } : CartItem)]).map
        (fun j => if j.productId == pid then { j with quantity := newq } else j)).filter
      (fun it => it.productId == pid)
      = [{ productId := pid, quantity := newq }] := by
  have hall : ∀ j ∈ l, (j.productId == pid) = false := by
    intro j hj
    have := List.find?_eq_none.mp h j hj
    simpa using this
  rw [List.map_append, List.filter_append]
  have hmap : l.map
      (fun j => if j.productId == pid then ({ j with quantity := newq } : CartItem) else j)
      = l.map id := by
    refine List.map_congr_left ?_
    intro a ha
    simp [hall a ha]
  rw [hmap, List.map_id]
  have hfil : l.filter (fun it => it.productId == pid) = [] := by
    refine List.filter_eq_nil_iff.mpr ?_
    intro a ha
    simp [hall a ha]
  rw [hfil]
  simp

theorem mergeAdd_absent (st : CartState) (pid : Nat) (q : Int)
    (habsent : findItem st pid = none) :
    mergeAdd st pid q = createItem st pid q := by
  simp only [mergeAdd, habsent]

/-- C1: starting from a cart with no row for an available product,
adding quantity q1 and then q2 (both in [1, 99]) of that product leaves
exactly one row for the (cart, product) pair, holding
min(q1 + q2, 99) — on the API handler and on the web handler alike. -/
theorem addItem_merge_semantics (catalog : List Product) (prices : Nat → Rat)
    (st : CartState) (pid : Nat) (q1 q2 : Int)
    (hq1 : 1 ≤ q1) (hq1' : q1 ≤ 99) (hq2 : 1 ≤ q2) (hq2' : q2 ≤ 99)
    (havail : (catalog.find? (fun p => p.id == pid && p.available)).isSome = true)
    (habsent : findItem st pid = none) :
    ((add_item catalog prices ((add_item catalog prices st pid q1).2) pid q2).2).items.filter
        (fun it => it.productId == pid)
      = [{ productId := pid, quantity := min (q1 + q2) 99 }] ∧
    ((add_to_cart catalog ((add_to_cart catalog st pid q1).2) pid q2).2).items.filter
        (fun it => it.productId == pid)
      = [{ productId := pid, quantity := min (q1 + q2) 99 }] := by
  obtain ⟨p, hp⟩ := Option.isSome_iff_exists.mp havail
  have h11 : ¬ (q1 < 1) := by omega
  have h12 : ¬ (99 < q1) := by omega
  have h21 : ¬ (q2 < 1) := by omega
  have h22 : ¬ (99 < q2) := by omega
  have hmin : (if 99 < q1 + q2 then 99 else q1 + q2) = min (q1 + q2) 99 := by
    split <;> omega
  have merge2 : ∀ st1 : CartState, st1.items = st.items ++ [⟨pid, q1⟩] →
      (mergeAdd st1 pid q2).items.filter (fun it => it.productId == pid)
        = [{ productId := pid, quantity := min (q1 + q2) 99 }] := by
    intro st1 hst1
    have hf : findItem st1 pid = some ⟨pid, q1⟩ := by
      unfold findItem at habsent ⊢
      rw [hst1, List.find?_append, habsent]
      simp [List.find?]
    have hsave : mergeAdd st1 pid q2
        = saveItemQuantity st1 pid (min (q1 + q2) 99) := by
      simp only [mergeAdd, hf, hmin]
    rw [hsave]
    unfold saveItemQuantity
    dsimp only
    rw [hst1]
    unfold findItem at habsent
    exact filter_map_setQuantity st.items pid q1 (min (q1 + q2) 99) habsent
  have e1 : add_item catalog prices st pid q1
      = (.ok, (serializeCart prices (mergeAdd st pid q1)).2.2) := by
    simp only [add_item, if_neg h11, if_neg h12, hp]
  have items1 : ((add_item catalog prices st pid q1).2).items
      = st.items ++ [⟨pid, q1⟩] := by
    rw [e1]
    dsimp only
    rw [items_serializeCart, mergeAdd_absent st pid q1 habsent]
    rfl
  have e1w : add_to_cart catalog st pid q1
      = (.serverError, mergeAdd st pid q1) := by
    simp only [add_to_cart, if_neg h11, if_neg h12, hp]
  have items1w : ((add_to_cart catalog st pid q1).2).items
      = st.items ++ [⟨pid, q1⟩] := by
    rw [e1w]
    dsimp only
    rw [mergeAdd_absent st pid q1 habsent]
    rfl
  constructor
  · have e2 : add_item catalog prices ((add_item catalog prices st pid q1).2) pid q2
        = (.ok, (serializeCart prices
            (mergeAdd ((add_item catalog prices st pid q1).2) pid q2)).2.2) := by
      simp only [add_item, if_neg h21, if_neg h22, hp]
    rw [e2]
    dsimp only
    rw [items_serializeCart]
    exact merge2 _ items1
  · have e2w : add_to_cart catalog ((add_to_cart catalog st pid q1).2) pid q2
        = (.serverError, mergeAdd ((add_to_cart catalog st pid q1).2) pid q2) := by
      simp only [add_to_cart, if_neg h21, if_neg h22, hp]
    rw [e2w]
    dsimp only
    exact merge2 _ items1w

/-- Witness for C1: quantities 60 then 70 of product 1 merge into a
single row clamped at 99. -/
theorem addItem_merge_semantics_witness :
    ((add_item [⟨1, 100, true⟩] (fun _ => (100 : Rat))
        ((add_item [⟨1, 100, true⟩] (fun _ => (100 : Rat)) ⟨[], none, none⟩ 1 60).2)
        1 70).2).items.filter (fun it => it.productId == 1)
      = [{ productId := 1, quantity := min (60 + 70) 99 }] :=
  (addItem_merge_semantics [⟨1, 100, true⟩] (fun _ => (100 : Rat)) ⟨[], none, none⟩ 1 60 70
    (by decide) (by decide) (by decide) (by decide) rfl rfl).1

/-! ## C2 / C10: the direct quantity-set path -/

theorem validate_quantity_eq_true (q : Int) :
    validate_quantity q = true ↔ 1 ≤ q ∧ q ≤ 99 := by
  unfold validate_quantity
  by_cases h1 : q < 1
  · rw [if_pos h1]; simp; omega
  · rw [if_neg h1]
    by_cases h2 : 99 < q
    · rw [if_pos h2]; simp; omega
    · rw [if_neg h2]; simp; omega

/-- C2 counterexample: submitting quantity 0 through the update
operations never deletes the row — the API pipeline rejects it with a
validation error and the web handler crashes on its rejection response
(500), the row surviving on both — and quantity 100 is never stored as
submitted: the API rejects it and the web handler crashes with the row
unchanged. -/
theorem setQuantity_claim_counterexample :
    (updatePipeline ⟨[⟨1, 5⟩], none, none⟩ 1 (some 0)).1 = UpdResult.badRequest ∧
    (updatePipeline ⟨[⟨1, 5⟩], none, none⟩ 1 (some 0)).2.items = [⟨1, 5⟩] ∧
    (updatePipeline ⟨[⟨1, 5⟩], none, none⟩ 1 (some 100)).1 = UpdResult.badRequest ∧
    (updatePipeline ⟨[⟨1, 5⟩], none, none⟩ 1 (some 100)).2.items = [⟨1, 5⟩] ∧
    (update_cart_item ⟨[⟨1, 5⟩], none, none⟩ 1 0).1 = HttpResult.serverError ∧
    (update_cart_item ⟨[⟨1, 5⟩], none, none⟩ 1 0).2.items = [⟨1, 5⟩] ∧
    (update_cart_item ⟨[⟨1, 5⟩], none, none⟩ 1 100).1 = HttpResult.serverError ∧
    (update_cart_item ⟨[⟨1, 5⟩], none, none⟩ 1 100).2.items = [⟨1, 5⟩] := by
  decide

/-- C2 as amended: a submitted quantity below 1 or above 99 never
deletes the row and is never stored — the API pipeline answers 400 with
the state untouched, the web handler hits its bound checks and crashes
on the rejection response (500) with the state untouched; a submitted
quantity within [1, 99] is stored exactly as submitted on both handlers
(the web handler storing it before its success response crashes). -/
theorem setQuantity_validated_contract (st : CartState)
    (pid : Nat) (q : Int) (it : CartItem) (hfind : findItem st pid = some it) :
    ((q < 1 ∨ 99 < q) →
      updatePipeline st pid (some q) = (.badRequest, st) ∧
      update_cart_item st pid q = (.serverError, st)) ∧
    (1 ≤ q → q ≤ 99 →
      (updatePipeline st pid (some q)).1 = UpdResult.saved { it with quantity := q } ∧
      (updatePipeline st pid (some q)).2 = saveItemQuantity st pid q ∧
      update_cart_item st pid q = (.serverError, saveItemQuantity st pid q) ∧
      ∀ j ∈ (saveItemQuantity st pid q).items, j.productId = pid → j.quantity = q) := by
  constructor
  · intro hout
    have hv : validate_quantity q = false := by
      rcases hout with h | h
      · unfold validate_quantity; rw [if_pos h]
      · unfold validate_quantity; rw [if_neg (show ¬ (q < 1) by omega), if_pos h]
    refine ⟨?_, ?_⟩
    · simp only [updatePipeline, hfind, hv, Bool.false_eq_true, if_false]
    · rcases hout with h | h
      · simp only [update_cart_item, if_pos h]
      · simp only [update_cart_item, if_neg (show ¬ (q < 1) by omega), if_pos h]
  · intro h1 h2
    have hv : validate_quantity q = true := (validate_quantity_eq_true q).mpr ⟨h1, h2⟩
    have hnlt : ¬ (q < 1) := by omega
    have e : updatePipeline st pid (some q)
        = (UpdResult.saved { it with quantity := q }, saveItemQuantity st pid q) := by
      simp only [updatePipeline, hfind, hv, if_true, perform_update, if_neg hnlt]
    have ew : update_cart_item st pid q
        = (.serverError, saveItemQuantity st pid q) := by
      simp only [update_cart_item, if_neg hnlt, if_neg (show ¬ (99 < q) by omega), hfind]
    refine ⟨by rw [e], by rw [e], ew, ?_⟩
    · intro j hj hjpid
      unfold saveItemQuantity at hj
      dsimp only at hj
      rw [List.mem_map] at hj
      obtain ⟨a, ha, rfl⟩ := hj
      by_cases hc : (a.productId == pid) = true
      · rw [if_pos hc]
      · rw [if_neg hc] at hjpid ⊢
        exact absurd (by simpa using hjpid) hc

/-- Witness for the amended C2 at a concrete cart: quantity 7 is stored
exactly, quantity 0 is rejected with the row intact. -/
theorem setQuantity_validated_contract_witness :
    (updatePipeline ⟨[⟨1, 5⟩], none, none⟩ 1 (some 7)).1
      = UpdResult.saved ⟨1, 7⟩ ∧
    updatePipeline ⟨[⟨1, 5⟩], none, none⟩ 1 (some (-3))
      = (.badRequest, ⟨[⟨1, 5⟩], none, none⟩) := by
  have hs := (setQuantity_validated_contract
    ⟨[⟨1, 5⟩], none, none⟩ 1 7 ⟨1, 5⟩ rfl).2 (by decide) (by decide)
  have hr := (setQuantity_validated_contract
    ⟨[⟨1, 5⟩], none, none⟩ 1 (-3) ⟨1, 5⟩ rfl).1 (Or.inl (by decide))
  exact ⟨hs.1, hr.1⟩

/-- C10: on the API update pipeline the serializer validation (or, for a
partial update without a quantity, the stored quantity itself, in
range [1, 99]) guarantees `perform_update` never takes its delete
branch: the outcome is never `deletedRow`, and every saved outcome
carries a quantity in [1, 99]. -/
theorem update_delete_branch_unreachable (st : CartState) (pid : Nat)
    (q? : Option Int) (it : CartItem) (hfind : findItem st pid = some it)
    (h1 : 1 ≤ it.quantity) (h2 : it.quantity ≤ 99) :
    (updatePipeline st pid q?).1 ≠ UpdResult.deletedRow ∧
    (∀ j, (updatePipeline st pid q?).1 = UpdResult.saved j →
      1 ≤ j.quantity ∧ j.quantity ≤ 99) := by
  cases q? with
  | none =>
    have hnlt : ¬ (it.quantity < 1) := by omega
    have e : updatePipeline st pid none
        = (UpdResult.saved { it with quantity := it.quantity },
           saveItemQuantity st pid it.quantity) := by
      simp only [updatePipeline, hfind, perform_update, if_neg hnlt]
    rw [e]
    refine ⟨by simp, ?_⟩
    intro j hj
    injection hj with hj'
    subst hj'
    exact ⟨h1, h2⟩
  | some q =>
    by_cases hv : validate_quantity q = true
    · obtain ⟨hb1, hb2⟩ := (validate_quantity_eq_true q).mp hv
      have hnlt : ¬ (q < 1) := by omega
      have e : updatePipeline st pid (some q)
          = (UpdResult.saved { it with quantity := q }, saveItemQuantity st pid q) := by
        simp only [updatePipeline, hfind, hv, if_true, perform_update, if_neg hnlt]
      rw [e]
      refine ⟨by simp, ?_⟩
      intro j hj
      injection hj with hj'
      subst hj'
      exact ⟨hb1, hb2⟩
    · have e : updatePipeline st pid (some q) = (.badRequest, st) := by
        simp only [updatePipeline, hfind, if_neg hv]
      rw [e]
      refine ⟨by simp, ?_⟩
      intro j hj
      exact absurd hj (by simp)

/-- Witness for C10: submitted quantity 0 on a concrete row yields a
rejection, not a deletion. -/
theorem update_delete_branch_unreachable_witness :
    (updatePipeline ⟨[⟨1, 5⟩], none, none⟩ 1 (some 0)).1 ≠ UpdResult.deletedRow :=
  (update_delete_branch_unreachable ⟨[⟨1, 5⟩], none, none⟩ 1 (some 0) ⟨1, 5⟩
    rfl (by decide) (by decide)).1

/-! ## C9: clear-cart idempotence -/

/-- C9 counterexample: the web clear handler never reports success — on
a concrete cart it answers 500 (the `NameError` on the unimported
`JsonResponse`), refuting the claim that clearing succeeds and reports
success on every exposed clear operation. -/
theorem clear_success_claim_counterexample :
    (clear_cart ⟨[⟨1, 2⟩], none, none⟩).1 = HttpResult.serverError ∧
    HttpResult.serverError ≠ HttpResult.ok := by
  decide

/-- C9 as amended: the API clear always succeeds and leaves zero items,
clearing twice equals clearing once, and clearing an already-empty cart
changes no rows; the web clear handler deletes all rows with the same
idempotent state effect (the identity on an already-empty cart) but
answers 500 on every invocation instead of reporting success. -/
theorem clear_cart_idempotent (prices : Nat → Rat) (st : CartState) :
    (clear_cart st).2.items = [] ∧
    (clear_cart (clear_cart st).2).2 = (clear_cart st).2 ∧
    (st.items = [] → (clear_cart st).2 = st) ∧
    (clear_cart st).1 = HttpResult.serverError ∧
    (clearApi prices st).items = [] ∧
    clearApi prices (clearApi prices st) = clearApi prices st ∧
    (st.items = [] → (clearApi prices st).items = st.items) := by
  obtain ⟨items, cp, ci⟩ := st
  refine ⟨rfl, rfl, ?_, rfl, ?_, ?_, ?_⟩
  · intro h
    dsimp only at h
    subst h
    rfl
  · unfold clearApi
    rw [items_serializeCart]
  · cases cp <;> cases ci <;> rfl
  · intro h
    dsimp only at h
    subst h
    unfold clearApi
    rw [items_serializeCart]

/-! ## C3: clear does not invalidate the cached totals -/

/-- C3 failing run: a cart holding 2 units of a 100.00 product is read
once (populating the cached totals with 2 and 200.00), then cleared.
Both clear handlers use a bulk queryset delete that bypasses the
overridden `CartItem.delete`, and neither deletes the `cart_total_{id}`
or `cart_items_{id}` keys, so the rows are gone yet every subsequent
read of `total_items` and `total_price` still answers the stale 2 and
200.00 instead of 0. -/
theorem clear_leaves_stale_cached_totals :
    (serializeCart (fun _ => (100 : Rat)) ⟨[⟨1, 2⟩], none, none⟩).2.2
      = ⟨[⟨1, 2⟩], some 200, some 2⟩ ∧
    (clearApi (fun _ => (100 : Rat)) ⟨[⟨1, 2⟩], some 200, some 2⟩).items = [] ∧
    (clear_cart ⟨[⟨1, 2⟩], some 200, some 2⟩).2.items = [] ∧
    (total_items (clearApi (fun _ => (100 : Rat)) ⟨[⟨1, 2⟩], some 200, some 2⟩)).1
      = 2 ∧
    (total_price (fun _ => (100 : Rat))
        (clearApi (fun _ => (100 : Rat)) ⟨[⟨1, 2⟩], some 200, some 2⟩)).1 = 200 ∧
    (total_items (clear_cart ⟨[⟨1, 2⟩], some 200, some 2⟩).2).1 = 2 ∧
    (total_price (fun _ => (100 : Rat))
        (clear_cart ⟨[⟨1, 2⟩], some 200, some 2⟩).2).1 = 200 ∧
    (2 : Int) ≠ 0 ∧ (200 : Rat) ≠ 0 := by
  refine ⟨?_, rfl, rfl, rfl, rfl, rfl, rfl, by decide, ?_⟩
  · unfold serializeCart total_items total_price itemTotalPrice
    norm_num
  · norm_num

/-! ## C8: quantity range invariant -/

theorem quantityInv_items_eq (st1 st2 : CartState) (h : st2.items = st1.items)
    (hinv : QuantityInv st1) : QuantityInv st2 := by
  intro it hit
  rw [h] at hit
  exact hinv it hit

theorem quantityInv_createItem (st : CartState) (pid : Nat) (q : Int)
    (h : QuantityInv st) (hq1 : 1 ≤ q) (hq2 : q ≤ 99) :
    QuantityInv (createItem st pid q) := by
  intro it hit
  unfold createItem at hit
  dsimp only at hit
  rw [List.mem_append] at hit
  rcases hit with hit | hit
  · exact h it hit
  · simp only [List.mem_singleton] at hit
    subst hit
    exact ⟨hq1, hq2⟩

theorem quantityInv_saveItemQuantity (st : CartState) (pid : Nat) (newq : Int)
    (h : QuantityInv st) (hq1 : 1 ≤ newq) (hq2 : newq ≤ 99) :
    QuantityInv (saveItemQuantity st pid newq) := by
  intro it hit
  unfold saveItemQuantity at hit
  dsimp only at hit
  rw [List.mem_map] at hit
  obtain ⟨a, ha, rfl⟩ := hit
  by_cases hc : (a.productId == pid) = true
  · rw [if_pos hc]
    exact ⟨hq1, hq2⟩
  · rw [if_neg hc]
    exact h a ha

theorem quantityInv_deleteItem (st : CartState) (pid : Nat)
    (h : QuantityInv st) : QuantityInv (deleteItem st pid) := by
  intro it hit
  unfold deleteItem at hit
  dsimp only at hit
  exact h it (List.mem_of_mem_filter hit)

theorem quantityInv_mergeAdd (st : CartState) (pid : Nat) (q : Int)
    (h : QuantityInv st) (hq1 : 1 ≤ q) (hq2 : q ≤ 99) :
    QuantityInv (mergeAdd st pid q) := by
  unfold mergeAdd
  cases hf : findItem st pid with
  | none => exact quantityInv_createItem st pid q h hq1 hq2
  | some it =>
    dsimp only
    have hf' : st.items.find? (fun j => j.productId == pid) = some it := hf
    have hb := h it (List.mem_of_find?_eq_some hf')
    refine quantityInv_saveItemQuantity st pid _ h ?_ ?_ <;> split <;> omega

theorem quantityInv_applyOp (catalog : List Product) (prices : Nat → Rat)
    (st : CartState) (op : CartOp) (h : QuantityInv st) :
    QuantityInv (applyOp catalog prices st op) := by
  cases op with
  | add pid q =>
    dsimp only [applyOp]
    unfold add_item
    by_cases h1 : q < 1
    · rw [if_pos h1]; exact h
    rw [if_neg h1]
    by_cases h2 : 99 < q
    · rw [if_pos h2]; exact h
    rw [if_neg h2]
    cases hcat : catalog.find? (fun p => p.id == pid && p.available) with
    | none => exact h
    | some p =>
      dsimp only
      exact quantityInv_items_eq _ _ (items_serializeCart prices _)
        (quantityInv_mergeAdd st pid q h (by omega) (by omega))
  | inc pid =>
    dsimp only [applyOp]
    unfold increment
    cases hf : findItem st pid with
    | none => exact h
    | some it =>
      dsimp only
      have hf' : st.items.find? (fun j => j.productId == pid) = some it := hf
      have hb := h it (List.mem_of_find?_eq_some hf')
      refine quantityInv_saveItemQuantity st pid _ h ?_ ?_ <;> split <;> omega
  | dec pid =>
    dsimp only [applyOp]
    unfold decrement
    cases hf : findItem st pid with
    | none => exact h
    | some it =>
      dsimp only
      have hf' : st.items.find? (fun j => j.productId == pid) = some it := hf
      have hb := h it (List.mem_of_find?_eq_some hf')
      by_cases hlt : it.quantity - 1 < 1
      · rw [if_pos hlt]
        exact quantityInv_deleteItem st pid h
      · rw [if_neg hlt]
        exact quantityInv_saveItemQuantity st pid _ h (by omega) (by omega)
  | setQty pid q? =>
    dsimp only [applyOp]
    unfold updatePipeline
    cases hf : findItem st pid with
    | none => exact h
    | some it =>
      have hf' : st.items.find? (fun j => j.productId == pid) = some it := hf
      have hb := h it (List.mem_of_find?_eq_some hf')
      cases q? with
      | none =>
        dsimp only
        unfold perform_update
        rw [if_neg (show ¬ (it.quantity < 1) by omega)]
        exact quantityInv_saveItemQuantity st pid _ h (by omega) (by omega)
      | some q =>
        dsimp only
        by_cases hv : validate_quantity q = true
        · rw [if_pos hv]
          obtain ⟨hb1, hb2⟩ := (validate_quantity_eq_true q).mp hv
          unfold perform_update
          by_cases hq : q < 1
          · rw [if_pos hq]
            exact quantityInv_deleteItem st pid h
          · rw [if_neg hq]
            exact quantityInv_saveItemQuantity st pid _ h (by omega) hb2
        · rw [if_neg hv]
          exact h

/-- C8: every cart item surviving any finite sequence of the exposed
operations (add, merge-add, increment, decrement, direct quantity
update) carries a quantity in [1, 99], provided every starting item did
(vacuously so for a fresh empty cart). -/
theorem quantity_range_invariant (catalog : List Product) (prices : Nat → Rat)
    (st : CartState) (ops : List CartOp) (h : QuantityInv st) :
    QuantityInv (runOps catalog prices st ops) := by
  induction ops generalizing st with
  | nil => exact h
  | cons op rest ih => exact ih _ (quantityInv_applyOp catalog prices st op h)

/-- Witness for C8: a concrete request sequence run from an empty
cart. -/
theorem quantity_range_invariant_witness :
    QuantityInv (runOps [⟨1, 100, true⟩] (fun _ => (100 : Rat)) ⟨[], none, none⟩
      [CartOp.add 1 5, CartOp.inc 1, CartOp.dec 1, CartOp.setQty 1 (some 7),
       CartOp.add 1 98]) :=
  quantity_range_invariant [⟨1, 100, true⟩] (fun _ => (100 : Rat)) ⟨[], none, none⟩
    [CartOp.add 1 5, CartOp.inc 1, CartOp.dec 1, CartOp.setQty 1 (some 7),
     CartOp.add 1 98]
    (by intro it hit; exact absurd hit (List.not_mem_nil it))

/-- Witness for C9: clearing a concrete already-empty cart changes no
rows. -/
theorem clear_cart_idempotent_witness :
    (clear_cart ⟨[], some 200, some 2⟩).2 = ⟨[], some 200, some 2⟩ ∧
    (clearApi (fun _ => (100 : Rat)) ⟨[], some 200, some 2⟩).items
      = ([] : List CartItem) := by
  have h := clear_cart_idempotent (fun _ => (100 : Rat)) ⟨[], some 200, some 2⟩
  exact ⟨h.2.2.1 rfl, h.2.2.2.2.2.2 rfl⟩
